import Mathlib

/-!
Shallow embedding of the `eetlijst` Python module (eetlijst/__init__.py),
an HTML-scraping client for the Eetlijst.nl meal-planning site.

Modelling conventions:
  * Python exceptions become an explicit `Err` sum type; a function that can
    raise returns `Except Err _`.
  * `datetime` values become integers (Unix epoch seconds); `now()` is passed
    in as an explicit parameter `t`.
  * Network I/O is an oracle `net : Nat -> Response` indexed by the number of
    requests made so far; every request performed is appended to a trace so
    that request counts and orders are observable.
  * HTML documents are abstracted to the exact data the code inspects: icon
    counts and digit runs per table cell, header/anchor flags and regex match
    results per row, redirect flags and query parameters per response.
-/

namespace Eetlijst

/-- Exceptions that the Python code can raise.  `typeError`, `valueError` and
`attributeError` are Python built-ins; the others are the module's own error
classes. -/
inductive Err where
  | loginError
  | sessionError
  | scrapingError
  | typeError
  | valueError
  | attributeError
  deriving DecidableEq, Repr

instance {ε α : Type} [DecidableEq ε] [DecidableEq α] :
    DecidableEq (Except ε α) := fun x y =>
  match x, y with
  | .ok a, .ok b => if h : a = b then isTrue (by rw [h]) else isFalse (by simp [h])
  | .error a, .error b =>
    if h : a = b then isTrue (by rw [h]) else isFalse (by simp [h])
  | .ok _, .error _ => isFalse (by simp)
  | .error _, .ok _ => isFalse (by simp)

/-- TIMEOUT_SESSION = 60 * 5 seconds. -/
def TIMEOUT_SESSION : Int := 60 * 5

/-- TIMEOUT_CACHE = 60 * 5 / 2 seconds. -/
def TIMEOUT_CACHE : Int := 60 * 5 / 2

/-- One cell of the status table, reduced to the data the parser inspects:
the four icon-marker counts (occurrences of nop.gif, kook.gif, eet.gif,
leeg.gif in the cell markup) and the digit runs RE_DIGIT finds in the cell
text. -/
structure Cell where
  nop : Nat
  kook : Nat
  eet : Nat
  leeg : Nat
  digits : List Nat
  deriving DecidableEq, Repr

/-- Extra multiplier from the cell text: `int(extra[0]) if extra else 1`. -/
def extraOf (digits : List Nat) : Nat :=
  match digits with
  | [] => 1
  | d :: _ => d

/-- Cell Classifier: the first-match decision chain from get_statuses
(lines 532-543 of eetlijst/__init__.py).  `none` models Python `None`
(no choice made); an `Err.scrapingError` is raised when no marker matches. -/
def classifyCell (c : Cell) : Except Err (Option Int) :=
  let extra : Int := (extraOf c.digits : Int)
  if c.nop > 0 then
    .ok (some 0)
  else if c.kook > 0 ∧ c.eet = 0 then
    .ok (some (c.kook : Int))
  else if c.kook > 0 ∧ c.eet > 0 then
    .ok (some ((c.kook : Int) + (c.eet : Int) * extra))
  else if c.eet > 0 then
    .ok (some (-1 * ((c.eet : Int) * extra)))
  else if c.leeg > 0 then
    .ok none
  else
    .error .scrapingError

/-- Status: one cell of a parsed row.  `value = none` models Python `None`.
The `last_changed` timestamp is not modelled (no claim touches it). -/
structure Status where
  value : Option Int
  deriving DecidableEq, Repr

/-- StatusRow: one parsed row of the status table. -/
structure StatusRow where
  timestamp : Nat
  deadline : Option Nat
  statuses : List Status
  deriving DecidableEq, Repr

/-- Python `x > 0` where `x : Optional[int]`: comparing `None` with an int
raises TypeError in Python 3. -/
def pyGtZero (x : Option Int) : Except Err Bool :=
  match x with
  | none => .error .typeError
  | some v => .ok (decide (v > 0))

/-- Python `x < 0` where `x : Optional[int]`: comparing `None` with an int
raises TypeError in Python 3. -/
def pyLtZero (x : Option Int) : Except Err Bool :=
  match x with
  | none => .error .typeError
  | some v => .ok (decide (v < 0))

/-- Python `x.value < 0 and x.value is not None` with short-circuit `and`:
the comparison is evaluated first, so the `is not None` guard is only
reached when the comparison already succeeded. -/
def ltZeroAndNotNone (x : Option Int) : Except Err Bool :=
  match pyLtZero x with
  | .error e => .error e
  | .ok false => .ok false
  | .ok true => .ok (decide (x ≠ none))

/-- StatusRow._extract: collect indices of statuses passing the test;
a raised exception aborts the whole traversal. -/
def extractIdx (f : Status → Except Err Bool) (statuses : List Status) :
    Except Err (List Nat) :=
  go 0 statuses
where
  go (i : Nat) : List Status → Except Err (List Nat)
    | [] => .ok []
    | s :: rest =>
      match f s with
      | .error e => .error e
      | .ok b =>
        match go (i + 1) rest with
        | .error e => .error e
        | .ok tl => .ok (if b then i :: tl else tl)

/-- StatusRow._test: return true at the first status passing the test;
a raised exception aborts the traversal. -/
def testAny (f : Status → Except Err Bool) : List Status → Except Err Bool
  | [] => .ok false
  | s :: rest =>
    match f s with
    | .error e => .error e
    | .ok true => .ok true
    | .ok false => testAny f rest

/-- StatusRow.get_cooks: `self._extract(lambda x: x.value > 0)`. -/
def StatusRow.get_cooks (r : StatusRow) : Except Err (List Nat) :=
  extractIdx (fun x => pyGtZero x.value) r.statuses

/-- StatusRow.get_diners:
`self._extract(lambda x: x.value < 0 and x.value is not None)`. -/
def StatusRow.get_diners (r : StatusRow) : Except Err (List Nat) :=
  extractIdx (fun x => ltZeroAndNotNone x.value) r.statuses

/-- StatusRow.has_cook: `self._test(lambda x: x.value > 0)`. -/
def StatusRow.has_cook (r : StatusRow) : Except Err Bool :=
  testAny (fun x => pyGtZero x.value) r.statuses

/-- StatusRow.has_diners:
`self._test(lambda x: x.value < 0 and x.value is not None)`. -/
def StatusRow.has_diners (r : StatusRow) : Except Err Bool :=
  testAny (fun x => ltZeroAndNotNone x.value) r.statuses

/-- One `<tr>` of the main table, reduced to the data get_statuses inspects:
the number of `<th>` cells (header detection), whether a td/a matches
RE_JAVASCRIPT_VS_1 (deadline detection), the integer captured by
re.search with RE_JAVASCRIPT_VS_2 resp. RE_JAVASCRIPT_K on the row's
decoded contents (`none` when the pattern does not match), and the
`<td>` cells. -/
structure Row where
  headerCells : Nat
  hasDeadlineAnchor : Bool
  tsMatchVS : Option Nat
  tsMatchK : Option Nat
  cells : List Cell
  deriving DecidableEq, Repr

/-- Python truthiness of `limit and len(results) >= limit`: `limit` is falsy
when it is `None` or `0`. -/
def limitHit (limit : Option Nat) (len : Nat) : Bool :=
  match limit with
  | none => false
  | some n => decide (n ≠ 0) && decide (n ≤ len)

/-- Classify every status cell of a row beyond the leading columns
(`for index, cell in ...: if index < start: continue`). -/
def parseCells (start : Nat) (cells : List Cell) : Except Err (List Status) :=
  match (cells.drop start).mapM classifyCell with
  | .error e => .error e
  | .ok vs => .ok (vs.map Status.mk)

/-- Main loop of Eetlijst.get_statuses (lines 460-557): walk the rows,
skipping header rows, fixing deadline mode on the first data row, matching
the embedded timestamp (an unmatched pattern means Python calls
`.group(1)` on `None`, an AttributeError), classifying cells, and stopping
early when the limit is hit. -/
def getStatusesLoop (limit : Option Nat) :
    Bool → List StatusRow → List Row → Except Err (List StatusRow)
  | _, results, [] => .ok results
  | hasDeadline, results, row :: rest =>
    if limitHit limit results.length then
      .ok results
    else if row.headerCells > 0 then
      getStatusesLoop limit hasDeadline results rest
    else
      let hd := if results.length = 0 then row.hasDeadlineAnchor else hasDeadline
      let start := if hd then 2 else 1
      let tsMatch := if hd then row.tsMatchVS else row.tsMatchK
      match tsMatch with
      | none => .error .attributeError
      | some ts =>
        match parseCells start row.cells with
        | .error e => .error e
        | .ok statuses =>
          getStatusesLoop limit hd
            (results ++ [⟨ts, if hd then some ts else none, statuses⟩]) rest

/-- Eetlijst.get_statuses on an already-located list of table rows. -/
def getStatusesRows (limit : Option Nat) (rows : List Row) :
    Except Err (List StatusRow) :=
  getStatusesLoop limit false [] rows

/-- An HTTP response, reduced to the fields the code inspects: the status
code, whether "login.php" occurs in the final URL, whether "r=failed"
occurs in the final URL, the parsed query pairs of the final URL, and the
body (abstracted to a number). -/
structure Response where
  statusCode : Nat
  urlHasLogin : Bool
  urlHasFailed : Bool
  query : List (String × String)
  content : Nat
  deriving Repr

/-- Python urlparse.parse_qs(...).get(key): parse_qs keeps only parameters
with non-blank values, grouping values per key, so an absent (or all-blank)
key yields Python `None`, and a present key always yields a non-empty
list. -/
def parseQsGet (pairs : List (String × String)) (key : String) :
    Option (List String) :=
  let vals := (pairs.filter (fun p => p.1 = key && p.2 ≠ "")).map (fun p => p.2)
  if vals = [] then none else some vals

/-- Mutable state of an Eetlijst client: credentials, `session` as an
optional (identifier, valid-until) pair, and the cache as an optional
(content, valid-until) pair for the single key "main_page". -/
structure Client where
  username : Option String
  password : Option String
  session : Option (String × Int)
  cache : Option (Nat × Int)
  deriving Repr

/-- Eetlijst.clear_cache: reset both the session and the cache. -/
def clearCache (c : Client) : Client :=
  { c with session := none, cache := none }

/-- Eetlijst._from_cache: the cached payload when the key is present and its
expiry has not passed, else `None` (a KeyError is swallowed). -/
def fromCache (cache : Option (Nat × Int)) (t : Int) : Option Nat :=
  match cache with
  | none => none
  | some (response, validUntil) => if t < validUntil then some response else none

/-- One network request issued by the client, as recorded in the trace. -/
inductive Req where
  | loginReq : Req
  | mainGet : Req
  | mainPost : Int → Req
  deriving DecidableEq, Repr

/-- Client state threaded through every operation: the Python object's
fields, the index of the next oracle response, and the trace of requests
issued so far. -/
structure St where
  client : Client
  idx : Nat
  trace : List Req
  deriving Repr

/-- Eetlijst._login at time `t`: one GET to login.php.  Raises LoginError
without credentials or on a failed-login redirect, SessionError on a bad
status code.  Extracting the session identifier evaluates
`query_array.get("session_id")[0]`: when the key is absent, `get` returns
`None` and subscripting `None` raises TypeError — the `except IndexError`
(which would give ScrapingError) only covers an empty value list, which
parse_qs never produces.  On success the session is stored with a fresh
TTL and the redirected main page is cached. -/
def loginStep (net : Nat → Response) (t : Int) (st : St) :
    Except Err Unit × St :=
  if st.client.username = none ∧ st.client.password = none then
    (.error .loginError, st)
  else
    let r := net st.idx
    let st1 : St := { st with idx := st.idx + 1, trace := st.trace ++ [.loginReq] }
    if r.statusCode ≠ 200 then
      (.error .sessionError, st1)
    else if r.urlHasFailed then
      (.error .loginError, st1)
    else
      match parseQsGet r.query "session_id" with
      | none => (.error .typeError, st1)
      | some [] => (.error .scrapingError, st1)
      | some (v :: _) =>
        (.ok (), { st1 with client :=
          { st1.client with
            session := some (v, t + TIMEOUT_SESSION),
            cache := some (r.content, t + TIMEOUT_CACHE) } })

/-- Eetlijst._get_session at time `t`.  `fuel` models the `is_retry` flag:
the initial call has fuel 1 and the retry after an expired session has
fuel 0, where a still-expired session raises SessionError.  When `renew`
is false the absent or expired session yields `none` with no side
effect. -/
def getSession (net : Nat → Response) (t : Int) (renew : Bool) :
    Nat → St → Except Err (Option String) × St
  | fuel, st =>
    match st.client.session, renew with
    | none, false => (.ok none, st)
    | none, true =>
      match loginStep net t st with
      | (.error e, st1) => (.error e, st1)
      | (.ok _, st1) =>
        match st1.client.session with
        | none => (.error .typeError, st1)
        | some (sid, validUntil) =>
          if validUntil < t then
            match fuel with
            | 0 => (.error .sessionError, st1)
            | f + 1 =>
              getSession net t true f
                { st1 with client := { st1.client with session := none } }
          else
            (.ok (some sid), st1)
    | some (sid, validUntil), false =>
      if validUntil < t then
        (.ok none, st)
      else
        (.ok (some sid), st)
    | some (sid, validUntil), true =>
      if validUntil < t then
        match fuel with
        | 0 => (.error .sessionError, st)
        | f + 1 =>
          getSession net t true f
            { st with client := { st.client with session := none } }
      else
        (.ok (some sid), st)

/-- Final step of Eetlijst._main_page (lines 675-678): refresh the session
expiry (`self.session[0]` raises TypeError when the session is `None`)
and store the content in the cache with a fresh TTL. -/
def mainFinish (t : Int) (content : Nat) (st : St) : Except Err Nat × St :=
  match st.client.session with
  | none => (.error .typeError, st)
  | some (sid, _) =>
    (.ok content, { st with client :=
      { st.client with
        session := some (sid, t + TIMEOUT_SESSION),
        cache := some (content, t + TIMEOUT_CACHE) } })

/-- Eetlijst._main_page at time `t`.  `post` selects the POST branch (with
`what` recorded in the trace); the GET branch consults the cache first and
a cache hit skips the status-code and redirect checks.  `fuel` models the
`is_retry` flag: on a redirect to login.php the session and the cache are
cleared together and the same request is retried exactly once (fuel 1 on
the initial call); a redirect seen with fuel 0 raises SessionError. -/
def mainPage (net : Nat → Response) (t : Int) (post : Bool) (what : Int) :
    Nat → St → Except Err Nat × St
  | fuel, st =>
    match getSession net t true 1 st with
    | (.error e, st1) => (.error e, st1)
    | (.ok _, st1) =>
      match (if post then none else fromCache st1.client.cache t) with
      | some content => mainFinish t content st1
      | none =>
        let r := net st1.idx
        let st2 : St := { st1 with
          idx := st1.idx + 1,
          trace := st1.trace ++ [if post then Req.mainPost what else Req.mainGet] }
        if r.statusCode ≠ 200 then
          (.error .sessionError, st2)
        else if r.urlHasLogin then
          let st3 : St := { st2 with client := clearCache st2.client }
          match fuel with
          | 0 => (.error .sessionError, st3)
          | f + 1 => mainPage net t post what f st3
        else
          mainFinish t r.content st2

/-- Sequence of `what` form values posted by Eetlijst.set_status for a
target value (lines 404-417); `none` is Python `None` (unset). -/
def setStatusWhats : Option Int → List Int
  | some v =>
    if v = -5 then [-3, -4, -4]
    else if v = -4 then [-3, -4]
    else if v = 4 then [3, 4]
    else [v]
  | none => [-5]

/-- Run the `_request` closures of set_status in order: each posts to the
main page; a raised exception aborts the sequence. -/
def runRequests (net : Nat → Response) (t : Int) :
    List Int → St → Except Err Unit × St
  | [], st => (.ok (), st)
  | w :: ws, st =>
    match mainPage net t true w 1 st with
    | (.error e, st1) => (.error e, st1)
    | (.ok _, st1) => runRequests net t ws st1

/-- A caller-supplied timestamp: whether it carries tzinfo, and its epoch
value. -/
structure Timestamp where
  tzAware : Bool
  epoch : Int
  deriving Repr

/-- Eetlijst.set_status at time `t`: validate the timestamp (ValueError when
timezone-unaware or in the past), then issue the step requests chosen by
the target value. -/
def setStatus (net : Nat → Response) (t : Int) (value : Option Int)
    (ts : Timestamp) (st : St) : Except Err Unit × St :=
  if ts.tzAware = false then
    (.error .valueError, st)
  else if ts.epoch < t then
    (.error .valueError, st)
  else
    runRequests net t (setStatusWhats value) st

/-- A sequence of cached-page reads (`get_statuses`, `get_noticeboard`, ...)
performed at the given times, each a plain GET of the main page. -/
def readSeq (net : Nat → Response) : List Int → St → Except Err Unit × St
  | [], st => (.ok (), st)
  | u :: us, st =>
    match mainPage net u false 0 1 st with
    | (.error e, st1) => (.error e, st1)
    | (.ok _, st1) => readSeq net us st1

/-- Check that each time in the list lies within one cache TTL of its
predecessor (the first within one TTL of the anchor `t`). -/
def chainb (t : Int) : List Int → Bool
  | [] => true
  | u :: us => decide (u < t + TIMEOUT_CACHE) && chainb u us

/-! ## Theorems -/

/-- C1: for every table cell, the Cell Classifier follows the fixed
first-match decision table over the four icon-marker counts (blank = nop,
cook = kook, diner = eet, empty = leeg) and the extra multiplier from the
cell text (default 1): blank>0 gives 0; cook>0 and diner=0 gives the cook
count; cook>0 and diner>0 gives cook + diner*extra; diner>0 alone gives
-(diner*extra); empty>0 gives unset; no marker gives ScrapingError. -/
theorem classifyCell_decision_table (c : Cell) :
    (c.nop > 0 → classifyCell c = .ok (some 0)) ∧
    (c.nop = 0 → c.kook > 0 → c.eet = 0 →
      classifyCell c = .ok (some (c.kook : Int))) ∧
    (c.nop = 0 → c.kook > 0 → c.eet > 0 →
      classifyCell c =
        .ok (some ((c.kook : Int) + (c.eet : Int) * (extraOf c.digits : Int)))) ∧
    (c.nop = 0 → c.kook = 0 → c.eet > 0 →
      classifyCell c = .ok (some (-((c.eet : Int) * (extraOf c.digits : Int))))) ∧
    (c.nop = 0 → c.kook = 0 → c.eet = 0 → c.leeg > 0 →
      classifyCell c = .ok none) ∧
    (c.nop = 0 → c.kook = 0 → c.eet = 0 → c.leeg = 0 →
      classifyCell c = .error .scrapingError) ∧
    extraOf [] = 1 := by
  refine ⟨?_, ?_, ?_, ?_, ?_, ?_, rfl⟩ <;>
    { intros
      unfold classifyCell
      split_ifs <;> first
        | rfl
        | omega
        | (simp only [Except.ok.injEq, Option.some.injEq]; ring) }

/-- C1 witness: the decision table evaluated on the spec's own test vector. -/
theorem classifyCell_decision_table_witness :
    classifyCell ⟨1, 0, 0, 0, []⟩ = .ok (some 0) ∧
    classifyCell ⟨0, 1, 0, 0, []⟩ = .ok (some 1) ∧
    classifyCell ⟨0, 1, 2, 0, []⟩ = .ok (some 3) ∧
    classifyCell ⟨0, 0, 3, 0, []⟩ = .ok (some (-3)) ∧
    classifyCell ⟨0, 0, 0, 1, []⟩ = .ok none ∧
    classifyCell ⟨0, 0, 0, 0, []⟩ = .error .scrapingError := by
  refine ⟨(classifyCell_decision_table _).1 (by decide),
    ?_, ?_, ?_,
    (classifyCell_decision_table _).2.2.2.2.1 rfl rfl rfl (by decide),
    (classifyCell_decision_table _).2.2.2.2.2.1 rfl rfl rfl rfl⟩
  · have := (classifyCell_decision_table ⟨0, 1, 0, 0, []⟩).2.1 rfl (by decide) rfl
    simpa using this
  · have := (classifyCell_decision_table ⟨0, 1, 2, 0, []⟩).2.2.1 rfl (by decide)
      (by decide)
    simpa using this
  · have := (classifyCell_decision_table ⟨0, 0, 3, 0, []⟩).2.2.2.1 rfl rfl
      (by decide)
    simpa using this

/-- The bare comparison and the guarded comparison are pointwise equal: the
`is not None` guard is evaluated only after `x.value < 0` already
succeeded, from which the value cannot be `None`. -/
lemma ltZeroAndNotNone_eq (x : Option Int) : ltZeroAndNotNone x = pyLtZero x := by
  cases x with
  | none => rfl
  | some v => by_cases hv : v < 0 <;> simp [ltZeroAndNotNone, pyLtZero, hv]

/-- A traversal by _extract raises TypeError as soon as the status list
contains an unset value, provided the test raises TypeError exactly on
unset values. -/
lemma extract_go_typeError (f : Status → Except Err Bool)
    (hnone : ∀ s : Status, s.value = none → f s = .error .typeError)
    (hsome : ∀ (s : Status) (v : Int), s.value = some v → ∃ b, f s = .ok b) :
    ∀ (l : List Status) (i : Nat), (∃ s ∈ l, s.value = none) →
      extractIdx.go f i l = .error .typeError := by
  intro l
  induction l with
  | nil => intro i h; simp at h
  | cons s rest ih =>
    intro i h
    cases hv : s.value with
    | none => simp [extractIdx.go, hnone s hv]
    | some v =>
      obtain ⟨b, hb⟩ := hsome s v hv
      have hrest : ∃ x ∈ rest, x.value = none := by
        obtain ⟨x, hx, hxv⟩ := h
        rcases List.mem_cons.mp hx with rfl | hx2
        · rw [hv] at hxv; exact absurd hxv (by simp)
        · exact ⟨x, hx2, hxv⟩
      simp [extractIdx.go, hb, ih (i + 1) hrest]

/-- A traversal by _test raises TypeError at an unset value when no earlier
status satisfied the test, provided the test raises TypeError exactly on
unset values and never raises anything else. -/
lemma testAny_pre_typeError (f : Status → Except Err Bool)
    (hnone : ∀ s : Status, s.value = none → f s = .error .typeError)
    (hshape : ∀ s : Status, f s = .error .typeError ∨ ∃ b, f s = .ok b) :
    ∀ (pre post : List Status), (∀ s ∈ pre, f s ≠ .ok true) →
      testAny f (pre ++ ⟨none⟩ :: post) = .error .typeError := by
  intro pre
  induction pre with
  | nil => intro post _; simp [testAny, hnone ⟨none⟩ rfl]
  | cons s rest ih =>
    intro post hpre
    rcases hshape s with hs | ⟨b, hb⟩
    · simp [testAny, hs]
    · have hb' : b = false := by
        by_contra hbt
        exact hpre s (by simp) (by rw [hb]; cases b <;> simp_all)
      subst hb'
      simpa [testAny, hb] using ih post (fun x hx => hpre x (by simp [hx]))

/-- C9: a StatusRow with at least one unset (None) value makes get_cooks and
get_diners raise TypeError instead of skipping the entry; has_cook and
has_diners raise TypeError whenever an unset entry is iterated before a
matching one; and the trailing `is not None` guard in get_diners and
has_diners never takes effect — the functions coincide with the bare
`value < 0` comparison. -/
theorem statusRow_unset_typeError (r : StatusRow) :
    ((∃ s ∈ r.statuses, s.value = none) →
      r.get_cooks = .error .typeError ∧ r.get_diners = .error .typeError) ∧
    (∀ pre post, r.statuses = pre ++ ⟨none⟩ :: post →
      (∀ s ∈ pre, pyGtZero s.value ≠ .ok true) →
      r.has_cook = .error .typeError) ∧
    (∀ pre post, r.statuses = pre ++ ⟨none⟩ :: post →
      (∀ s ∈ pre, ltZeroAndNotNone s.value ≠ .ok true) →
      r.has_diners = .error .typeError) ∧
    r.get_diners = extractIdx (fun x => pyLtZero x.value) r.statuses ∧
    r.has_diners = testAny (fun x => pyLtZero x.value) r.statuses := by
  have hgtNone : ∀ s : Status, s.value = none →
      pyGtZero s.value = .error .typeError := by
    intro s hs; rw [hs]; rfl
  have hgtSome : ∀ (s : Status) (v : Int), s.value = some v →
      ∃ b, pyGtZero s.value = .ok b := by
    intro s v hs; rw [hs]; exact ⟨_, rfl⟩
  have hgtShape : ∀ s : Status,
      pyGtZero s.value = .error .typeError ∨ ∃ b, pyGtZero s.value = .ok b := by
    intro s; cases hs : s.value
    · exact Or.inl (by rfl)
    · exact Or.inr ⟨_, rfl⟩
  have hdinNone : ∀ s : Status, s.value = none →
      ltZeroAndNotNone s.value = .error .typeError := by
    intro s hs; rw [hs]; rfl
  have hdinSome : ∀ (s : Status) (v : Int), s.value = some v →
      ∃ b, ltZeroAndNotNone s.value = .ok b := by
    intro s v hs; rw [hs, ltZeroAndNotNone_eq]; exact ⟨_, rfl⟩
  have hdinShape : ∀ s : Status, ltZeroAndNotNone s.value = .error .typeError ∨
      ∃ b, ltZeroAndNotNone s.value = .ok b := by
    intro s; cases hs : s.value
    · exact Or.inl rfl
    · exact Or.inr ⟨_, by rw [ltZeroAndNotNone_eq]; rfl⟩
  refine ⟨?_, ?_, ?_, ?_, ?_⟩
  · intro h
    exact ⟨extract_go_typeError _ hgtNone hgtSome r.statuses 0 h,
      extract_go_typeError _ hdinNone hdinSome r.statuses 0 h⟩
  · intro pre post hsplit hpre
    unfold StatusRow.has_cook
    rw [hsplit]
    exact testAny_pre_typeError _ hgtNone hgtShape pre post hpre
  · intro pre post hsplit hpre
    unfold StatusRow.has_diners
    rw [hsplit]
    exact testAny_pre_typeError _ hdinNone hdinShape pre post hpre
  · unfold StatusRow.get_diners
    congr 1
    exact funext fun x => ltZeroAndNotNone_eq x.value
  · unfold StatusRow.has_diners
    congr 1
    exact funext fun x => ltZeroAndNotNone_eq x.value

/-- C9 witness: concrete rows in which the unset value makes every accessor
raise TypeError. -/
theorem statusRow_unset_typeError_witness :
    (StatusRow.mk 0 none [⟨some 1⟩, ⟨none⟩]).get_cooks = .error .typeError ∧
    (StatusRow.mk 0 none [⟨some 1⟩, ⟨none⟩]).get_diners = .error .typeError ∧
    (StatusRow.mk 0 none [⟨some 0⟩, ⟨none⟩, ⟨some 1⟩]).has_cook
      = .error .typeError ∧
    (StatusRow.mk 0 none [⟨some 0⟩, ⟨none⟩, ⟨some 1⟩]).has_diners
      = .error .typeError := by
  have hex : ∃ s ∈ (StatusRow.mk 0 none [⟨some 1⟩, ⟨none⟩]).statuses,
      s.value = none := ⟨⟨none⟩, by simp, rfl⟩
  refine ⟨((statusRow_unset_typeError _).1 hex).1,
    ((statusRow_unset_typeError _).1 hex).2,
    (statusRow_unset_typeError _).2.1 [⟨some 0⟩] [⟨some 1⟩] rfl ?_,
    (statusRow_unset_typeError _).2.2.1 [⟨some 0⟩] [⟨some 1⟩] rfl ?_⟩
  · intro s hs
    simp only [List.mem_singleton] at hs
    subst hs
    decide
  · intro s hs
    simp only [List.mem_singleton] at hs
    subst hs
    decide

/-- C4 counterexample: a data row matching neither timestamp pattern makes
get_statuses fail with AttributeError (Python evaluates `None.group(1)`),
not with ScrapingError as claimed. -/
theorem getStatuses_no_match_counterexample :
    getStatusesRows none [⟨0, false, none, none, []⟩]
      = .error .attributeError ∧
    getStatusesRows none [⟨0, false, none, none, []⟩]
      ≠ .error .scrapingError := by
  decide

/-- C4 amended: whenever the loop reaches a data row whose selected
timestamp pattern (deadline variant or plain variant) does not match,
get_statuses fails with an AttributeError — `re.search` returns None and
`.group(1)` is called on it — rather than a ScrapingError. -/
theorem getStatuses_no_match_attributeError (limit : Option Nat)
    (hasDeadline : Bool) (results : List StatusRow) (row : Row)
    (rest : List Row)
    (hlim : limitHit limit results.length = false)
    (hhdr : row.headerCells = 0)
    (hmatch : (if (if results.length = 0 then row.hasDeadlineAnchor
        else hasDeadline) then row.tsMatchVS else row.tsMatchK) = none) :
    getStatusesLoop limit hasDeadline results (row :: rest)
      = .error .attributeError := by
  rw [getStatusesLoop, hlim]
  simp only [Bool.false_eq_true, if_false, hhdr, gt_iff_lt, Nat.lt_irrefl,
    if_false]
  rw [hmatch]

/-- C4 amended witness: a deadline-mode data row whose deadline-variant
pattern does not match. -/
theorem getStatuses_no_match_attributeError_witness :
    getStatusesLoop none false [] [⟨0, true, none, some 3, []⟩]
      = .error .attributeError :=
  getStatuses_no_match_attributeError none false [] ⟨0, true, none, some 3, []⟩
    [] rfl rfl rfl

/-- C8 counterexample: with a caller-supplied limit of 0, get_statuses does
not return zero rows — `limit and ...` is falsy for 0, so all rows are
parsed and returned. -/
theorem getStatuses_limit_zero_counterexample :
    getStatusesRows (some 0) [⟨0, false, none, some 5, []⟩]
      = .ok [⟨5, none, []⟩] ∧
    getStatusesRows (some 0) [⟨0, false, none, some 5, []⟩] ≠ .ok [] := by
  decide

/-- Once the accumulated results have reached a positive limit, the loop
stops and returns them unchanged, whatever rows remain. -/
lemma getStatusesLoop_stop (n : Nat) (hn : n ≠ 0) (hd : Bool)
    (acc : List StatusRow) (hacc : n ≤ acc.length) (rows : List Row) :
    getStatusesLoop (some n) hd acc rows = .ok acc := by
  cases rows with
  | nil => rfl
  | cons r rest =>
    have hl : limitHit (some n) acc.length = true := by
      simp [limitHit, hn, hacc]
    rw [getStatusesLoop, hl]
    simp

/-- Under a positive limit the loop never grows the results beyond the
limit. -/
lemma getStatusesLoop_length_le (n : Nat) (hn : n ≠ 0) :
    ∀ (rows : List Row) (hd : Bool) (acc res : List StatusRow),
      acc.length ≤ n → getStatusesLoop (some n) hd acc rows = .ok res →
      res.length ≤ n := by
  intro rows
  induction rows with
  | nil =>
    intro hd acc res hacc h
    rw [getStatusesLoop] at h
    cases h
    exact hacc
  | cons row rest ih =>
    intro hd acc res hacc h
    rw [getStatusesLoop] at h
    by_cases hl : limitHit (some n) acc.length = true
    · rw [hl] at h
      simp at h
      subst h
      exact hacc
    · have hlt : acc.length < n := by
        simp [limitHit, hn] at hl
        omega
      rw [Bool.not_eq_true] at hl
      rw [hl] at h
      simp only [Bool.false_eq_true, if_false] at h
      by_cases hh : row.headerCells > 0
      · rw [if_pos hh] at h
        exact ih hd acc res hacc h
      · rw [if_neg hh] at h
        split at h
        · exact Except.noConfusion h
        · split at h
          · exact Except.noConfusion h
          · exact ih _ _ _ (by simp; omega) h

/-- A limit of 0 is falsy in `limit and len(results) >= limit`, so the loop
behaves exactly as with no limit at all. -/
lemma getStatusesLoop_zero_eq_none :
    ∀ (rows : List Row) (hd : Bool) (acc : List StatusRow),
      getStatusesLoop (some 0) hd acc rows = getStatusesLoop none hd acc rows := by
  intro rows
  induction rows with
  | nil => intro hd acc; rfl
  | cons row rest ih =>
    intro hd acc
    rw [getStatusesLoop, getStatusesLoop]
    have h0 : limitHit (some 0) acc.length = false := by simp [limitHit]
    have h1 : limitHit none acc.length = false := rfl
    rw [h0, h1]
    simp only [Bool.false_eq_true, if_false]
    by_cases hh : row.headerCells > 0
    · rw [if_pos hh, if_pos hh]
      exact ih hd acc
    · rw [if_neg hh, if_neg hh]
      split
      · rfl
      · split
        · rfl
        · exact ih _ _

/-- C8 amended: for every positive limit n, get_statuses stops once n rows
have been produced (remaining rows are ignored) and returns at most n
rows; a limit of 0, however, is falsy in Python and is treated as no
limit, returning all rows. -/
theorem getStatuses_limit_amended (n : Nat) (rows : List Row) :
    (∀ res, n ≠ 0 → getStatusesRows (some n) rows = .ok res →
      res.length ≤ n) ∧
    (∀ (hd : Bool) (acc : List StatusRow), n ≠ 0 → n ≤ acc.length →
      getStatusesLoop (some n) hd acc rows = .ok acc) ∧
    getStatusesRows (some 0) rows = getStatusesRows none rows := by
  refine ⟨?_, ?_, getStatusesLoop_zero_eq_none rows false []⟩
  · intro res hn h
    exact getStatusesLoop_length_le n hn rows false [] res (by simp) h
  · intro hd acc hn hacc
    exact getStatusesLoop_stop n hn hd acc hacc rows

/-- C8 amended witness: limit 2 over three parseable rows yields exactly the
first two, and a saturated accumulator stops the loop. -/
theorem getStatuses_limit_amended_witness :
    ([(⟨5, none, []⟩ : StatusRow), ⟨5, none, []⟩].length ≤ 2) ∧
    getStatusesLoop (some 2) false [⟨5, none, []⟩, ⟨5, none, []⟩]
      [⟨0, false, none, some 7, []⟩] = .ok [⟨5, none, []⟩, ⟨5, none, []⟩] := by
  refine ⟨(getStatuses_limit_amended 2 [⟨0, false, none, some 5, []⟩,
      ⟨0, false, none, some 5, []⟩, ⟨0, false, none, some 5, []⟩]).1
      [⟨5, none, []⟩, ⟨5, none, []⟩] (by decide) (by decide),
    (getStatuses_limit_amended 2 [⟨0, false, none, some 7, []⟩]).2.1 false
      [⟨5, none, []⟩, ⟨5, none, []⟩] (by decide) (by decide)⟩

/-- A present key in a parse_qs result always carries a non-empty value
list, so the IndexError branch of _login — the one that raises the
intended ScrapingError — is unreachable. -/
lemma parseQsGet_ne_some_nil (pairs : List (String × String)) (key : String) :
    parseQsGet pairs key ≠ some [] := by
  unfold parseQsGet
  by_cases hv : (pairs.filter (fun p => p.1 = key && p.2 ≠ "")).map
      (fun p => p.2) = []
  · simp [hv]
  · simp [hv]

/-- C5: at a login response whose redirect URL lacks the session-identifier
query parameter, _login raises TypeError (`dict.get` returns None and
`None[0]` is a TypeError, which the `except IndexError` does not catch),
not the ScrapingError the spec claims; parse_qs reports the missing key as
None. -/
theorem login_missing_session_param :
    (loginStep (fun _ => ⟨200, false, false, [("r", "ok")], 99⟩) 0
      ⟨⟨some "u", some "p", none, none⟩, 0, []⟩).1 = .error .typeError ∧
    (loginStep (fun _ => ⟨200, false, false, [("r", "ok")], 99⟩) 0
      ⟨⟨some "u", some "p", none, none⟩, 0, []⟩).1 ≠ .error .scrapingError ∧
    parseQsGet [("r", "ok")] "session_id" = none := by
  refine ⟨rfl, ?_, rfl⟩
  intro h
  rw [show (loginStep (fun _ => ⟨200, false, false, [("r", "ok")], 99⟩) 0
      ⟨⟨some "u", some "p", none, none⟩, 0, []⟩).1 = .error .typeError from rfl]
      at h
  exact absurd (Except.error.inj h) (by decide)

/-- C6: a timezone-naive or past timestamp makes set_status raise ValueError
immediately: the returned state is the input state, so the session, the
cache and the request trace are unchanged — no network request is
issued. -/
theorem setStatus_invalid_timestamp (net : Nat → Response) (t : Int)
    (value : Option Int) (ts : Timestamp) (st : St)
    (h : ts.tzAware = false ∨ ts.epoch < t) :
    setStatus net t value ts st = (.error .valueError, st) := by
  unfold setStatus
  rcases h with h | h
  · rw [h]
    simp
  · by_cases htz : ts.tzAware = false
    · rw [htz]
      simp
    · simp [htz, h]

/-- C6 witness: a past (but timezone-aware) timestamp at time 100. -/
theorem setStatus_invalid_timestamp_witness :
    setStatus (fun _ => ⟨200, false, false, [], 0⟩) 100 (some 1) ⟨true, 50⟩
      ⟨⟨some "u", some "p", some ("sid", 1000), none⟩, 0, []⟩
      = (.error .valueError,
         ⟨⟨some "u", some "p", some ("sid", 1000), none⟩, 0, []⟩) :=
  setStatus_invalid_timestamp _ 100 (some 1) ⟨true, 50⟩ _
    (Or.inr (by norm_num))

/-- Calling _get_session with a stored, unexpired session returns its identifier and
changes nothing. -/
lemma getSession_valid (net : Nat → Response) (t : Int) (fuel : Nat)
    (u p : Option String) (sid : String) (vu : Int)
    (cach : Option (Nat × Int)) (i : Nat) (tr : List Req) (hvu : ¬ vu < t) :
    getSession net t true fuel ⟨⟨u, p, some (sid, vu), cach⟩, i, tr⟩ =
      (.ok (some sid), ⟨⟨u, p, some (sid, vu), cach⟩, i, tr⟩) := by
  rw [getSession.eq_def]
  simp [hvu]

/-- The closing step of _main_page with a stored session: refresh the
session expiry and cache the content, both with a full TTL from now. -/
lemma mainFinish_some (t : Int) (content : Nat) (u p : Option String)
    (sid : String) (vu : Int) (cach : Option (Nat × Int)) (i : Nat)
    (tr : List Req) :
    mainFinish t content ⟨⟨u, p, some (sid, vu), cach⟩, i, tr⟩ =
      (.ok content,
       ⟨⟨u, p, some (sid, t + TIMEOUT_SESSION),
         some (content, t + TIMEOUT_CACHE)⟩, i, tr⟩) := rfl

/-- A POST with a valid session and a well-behaved response: one request is
issued and the response content is returned and cached. -/
lemma mainPage_post_good (net : Nat → Response) (t : Int) (w : Int)
    (fuel : Nat) (u p : Option String) (sid : String) (vu : Int)
    (cach : Option (Nat × Int)) (i : Nat) (tr : List Req)
    (hvu : ¬ vu < t)
    (hstatus : (net i).statusCode = 200)
    (hlogin : (net i).urlHasLogin = false) :
    mainPage net t true w fuel ⟨⟨u, p, some (sid, vu), cach⟩, i, tr⟩ =
      (.ok (net i).content,
       ⟨⟨u, p, some (sid, t + TIMEOUT_SESSION),
         some ((net i).content, t + TIMEOUT_CACHE)⟩, i + 1,
        tr ++ [.mainPost w]⟩) := by
  rw [mainPage, getSession_valid net t 1 u p sid vu cach i tr hvu]
  simp [hstatus, hlogin, mainFinish]

/-- A GET answered from the cache: no request is issued, yet the session and
cache expiries are refreshed to a full TTL from now. -/
lemma mainPage_get_hit (net : Nat → Response) (t : Int) (fuel : Nat)
    (u p : Option String) (sid : String) (vu : Int) (c : Nat) (e : Int)
    (i : Nat) (tr : List Req) (hvu : ¬ vu < t) (ht : t < e) :
    mainPage net t false 0 fuel ⟨⟨u, p, some (sid, vu), some (c, e)⟩, i, tr⟩ =
      (.ok c,
       ⟨⟨u, p, some (sid, t + TIMEOUT_SESSION),
         some (c, t + TIMEOUT_CACHE)⟩, i, tr⟩) := by
  rw [mainPage, getSession_valid net t 1 u p sid vu (some (c, e)) i tr hvu]
  simp [fromCache, ht, mainFinish]

/-- A GET on a cache miss with a valid session and a well-behaved response:
one request is issued and the response content is returned and cached. -/
lemma mainPage_get_miss (net : Nat → Response) (t : Int) (fuel : Nat)
    (u p : Option String) (sid : String) (vu : Int)
    (cach : Option (Nat × Int)) (i : Nat) (tr : List Req)
    (hvu : ¬ vu < t)
    (hmiss : fromCache cach t = none)
    (hstatus : (net i).statusCode = 200)
    (hlogin : (net i).urlHasLogin = false) :
    mainPage net t false 0 fuel ⟨⟨u, p, some (sid, vu), cach⟩, i, tr⟩ =
      (.ok (net i).content,
       ⟨⟨u, p, some (sid, t + TIMEOUT_SESSION),
         some ((net i).content, t + TIMEOUT_CACHE)⟩, i + 1,
        tr ++ [.mainGet]⟩) := by
  rw [mainPage, getSession_valid net t 1 u p sid vu cach i tr hvu]
  simp [hmiss, hstatus, hlogin, mainFinish]

/-- C7: _from_cache returns the stored payload exactly when the entry is
present and its expiry has not passed, and reports a miss silently (None,
not an error) otherwise; moreover a second read within the cache TTL is
answered from the cache: the two reads together issue exactly one network
request (the trace gains a single mainGet and the second read leaves it
unchanged). -/
theorem cache_hit_read_path (net : Nat → Response) (t1 t2 : Int)
    (u p : Option String) (sid : String) (vu : Int)
    (cach : Option (Nat × Int)) (i : Nat) (tr : List Req)
    (hvu : ¬ vu < t1) (hmiss : fromCache cach t1 = none)
    (hstatus : (net i).statusCode = 200) (hlogin : (net i).urlHasLogin = false)
    (httl : t2 < t1 + TIMEOUT_CACHE) :
    (∀ (cache : Option (Nat × Int)) (s : Int) (pl : Nat),
      fromCache cache s = some pl ↔ ∃ e, cache = some (pl, e) ∧ s < e) ∧
    mainPage net t1 false 0 1 ⟨⟨u, p, some (sid, vu), cach⟩, i, tr⟩ =
      (.ok (net i).content,
       ⟨⟨u, p, some (sid, t1 + TIMEOUT_SESSION),
         some ((net i).content, t1 + TIMEOUT_CACHE)⟩, i + 1,
        tr ++ [.mainGet]⟩) ∧
    mainPage net t2 false 0 1
      ⟨⟨u, p, some (sid, t1 + TIMEOUT_SESSION),
        some ((net i).content, t1 + TIMEOUT_CACHE)⟩, i + 1,
       tr ++ [.mainGet]⟩ =
      (.ok (net i).content,
       ⟨⟨u, p, some (sid, t2 + TIMEOUT_SESSION),
         some ((net i).content, t2 + TIMEOUT_CACHE)⟩, i + 1,
        tr ++ [.mainGet]⟩) := by
  refine ⟨?_,
    mainPage_get_miss net t1 1 u p sid vu cach i tr hvu hmiss hstatus hlogin,
    mainPage_get_hit net t2 1 u p sid (t1 + TIMEOUT_SESSION) (net i).content
      (t1 + TIMEOUT_CACHE) (i + 1) (tr ++ [.mainGet]) ?_ httl⟩
  · intro cache s pl
    cases cache with
    | none => simp [fromCache]
    | some pr =>
      obtain ⟨cc, ee⟩ := pr
      by_cases hs : s < ee
      · simp only [fromCache, if_pos hs, Option.some.injEq, Prod.mk.injEq]
        constructor
        · intro h
          exact ⟨ee, ⟨h, rfl⟩, hs⟩
        · rintro ⟨e, ⟨h1, h2⟩, h3⟩
          exact h1
      · simp only [fromCache, if_neg hs, Option.some.injEq, Prod.mk.injEq]
        constructor
        · intro h
          exact Option.noConfusion h
        · rintro ⟨e, ⟨h1, h2⟩, h3⟩
          subst h2
          exact absurd h3 hs
  · simp only [TIMEOUT_SESSION, TIMEOUT_CACHE] at *
    omega

/-- C7 witness: two reads at times 100 and 200 under a 150-second cache TTL,
starting from an empty cache and a session valid until 1000. -/
theorem cache_hit_read_path_witness :
    mainPage (fun _ => ⟨200, false, false, [], 42⟩) 100 false 0 1
      ⟨⟨some "u", some "p", some ("sid", 1000), none⟩, 0, []⟩ =
      (.ok 42,
       ⟨⟨some "u", some "p", some ("sid", 400), some (42, 250)⟩, 1,
        [.mainGet]⟩) ∧
    mainPage (fun _ => ⟨200, false, false, [], 42⟩) 200 false 0 1
      ⟨⟨some "u", some "p", some ("sid", 400), some (42, 250)⟩, 1,
       [.mainGet]⟩ =
      (.ok 42,
       ⟨⟨some "u", some "p", some ("sid", 500), some (42, 350)⟩, 1,
        [.mainGet]⟩) := by
  have h := cache_hit_read_path (fun _ => ⟨200, false, false, [], 42⟩) 100 200
    (some "u") (some "p") "sid" 1000 none 0 [] (by norm_num) rfl rfl rfl
    (by norm_num [TIMEOUT_CACHE])
  constructor
  · have h1 := h.2.1
    norm_num [TIMEOUT_SESSION, TIMEOUT_CACHE] at h1
    exact h1
  · have h2 := h.2.2
    norm_num [TIMEOUT_SESSION, TIMEOUT_CACHE] at h2
    exact h2

/-- Running the _request sequence under a valid session against responses
that are all well-behaved: every POST succeeds and the trace records the
posted `what` values in order. -/
lemma runRequests_good (net : Nat → Response) (t : Int)
    (hgood : ∀ j, (net j).statusCode = 200 ∧ (net j).urlHasLogin = false) :
    ∀ (ws : List Int) (u p : Option String) (sid : String) (vu : Int)
      (cach : Option (Nat × Int)) (i : Nat) (tr : List Req), ¬ vu < t →
      (runRequests net t ws ⟨⟨u, p, some (sid, vu), cach⟩, i, tr⟩).1
        = .ok () ∧
      (runRequests net t ws ⟨⟨u, p, some (sid, vu), cach⟩, i, tr⟩).2.trace
        = tr ++ ws.map Req.mainPost := by
  intro ws
  induction ws with
  | nil =>
    intro u p sid vu cach i tr hvu
    simp [runRequests]
  | cons w ws ih =>
    intro u p sid vu cach i tr hvu
    rw [runRequests,
      mainPage_post_good net t w 1 u p sid vu cach i tr hvu
        (hgood i).1 (hgood i).2]
    have hstep := ih u p sid (t + TIMEOUT_SESSION)
      (some ((net i).content, t + TIMEOUT_CACHE)) (i + 1)
      (tr ++ [.mainPost w])
      (by simp [TIMEOUT_SESSION])
    refine ⟨hstep.1, ?_⟩
    rw [hstep.2]
    simp

/-- C2: with a valid (timezone-aware, future) timestamp and a valid session,
set_status issues exactly the fixed request sequence for the target value:
three requests [-3, -4, -4] for -5, two requests [-3, -4] for -4, two
requests [3, 4] for 4, one request with the sentinel -5 for the unset
target, and one request carrying the value itself for every other
target. -/
theorem setStatus_request_sequence (net : Nat → Response) (t : Int)
    (value : Option Int) (ts : Timestamp)
    (u p : Option String) (sid : String) (vu : Int)
    (cach : Option (Nat × Int)) (i : Nat) (tr : List Req)
    (hgood : ∀ j, (net j).statusCode = 200 ∧ (net j).urlHasLogin = false)
    (htz : ts.tzAware = true) (hfut : ¬ ts.epoch < t) (hvu : ¬ vu < t) :
    ((setStatus net t value ts ⟨⟨u, p, some (sid, vu), cach⟩, i, tr⟩).1
        = .ok () ∧
     (setStatus net t value ts ⟨⟨u, p, some (sid, vu), cach⟩, i, tr⟩).2.trace
        = tr ++ (setStatusWhats value).map Req.mainPost) ∧
    setStatusWhats (some (-5)) = [-3, -4, -4] ∧
    setStatusWhats (some (-4)) = [-3, -4] ∧
    setStatusWhats (some 4) = [3, 4] ∧
    setStatusWhats none = [-5] ∧
    (∀ v : Int, v ≠ -5 → v ≠ -4 → v ≠ 4 → setStatusWhats (some v) = [v]) := by
  refine ⟨?_, by decide, by decide, by decide, rfl, ?_⟩
  · unfold setStatus
    rw [htz]
    simp only [Bool.true_eq_false, if_false]
    rw [if_neg hfut]
    exact runRequests_good net t hgood (setStatusWhats value) u p sid vu cach
      i tr hvu
  · intro v h5 h4 hp4
    simp [setStatusWhats, h5, h4, hp4]

/-- C2 witness: target -5 at time 100 with a future timestamp issues the
three requests -3, -4, -4 in order. -/
theorem setStatus_request_sequence_witness :
    (setStatus (fun _ => ⟨200, false, false, [], 42⟩) 100 (some (-5))
      ⟨true, 500⟩ ⟨⟨some "u", some "p", some ("sid", 1000), none⟩, 0, []⟩).1
      = .ok () ∧
    (setStatus (fun _ => ⟨200, false, false, [], 42⟩) 100 (some (-5))
      ⟨true, 500⟩ ⟨⟨some "u", some "p", some ("sid", 1000), none⟩, 0, []⟩).2.trace
      = [.mainPost (-3), .mainPost (-4), .mainPost (-4)] := by
  have h := setStatus_request_sequence (fun _ => ⟨200, false, false, [], 42⟩)
    100 (some (-5)) ⟨true, 500⟩ (some "u") (some "p") "sid" 1000 none 0 []
    (fun _ => ⟨rfl, rfl⟩) rfl (by norm_num) (by norm_num)
  refine ⟨h.1.1, ?_⟩
  rw [h.1.2, h.2.1]
  rfl

/-- Calling _login with credentials against a successful login response: one login
request, a fresh session and the redirected page cached. -/
lemma loginStep_ok (net : Nat → Response) (t : Int) (u : String)
    (p : Option String) (sess : Option (String × Int))
    (cach : Option (Nat × Int)) (i : Nat) (tr : List Req)
    (v : String) (vs : List String)
    (hstatus : (net i).statusCode = 200)
    (hfail : (net i).urlHasFailed = false)
    (hq : parseQsGet (net i).query "session_id" = some (v :: vs)) :
    loginStep net t ⟨⟨some u, p, sess, cach⟩, i, tr⟩ =
      (.ok (),
       ⟨⟨some u, p, some (v, t + TIMEOUT_SESSION),
         some ((net i).content, t + TIMEOUT_CACHE)⟩, i + 1,
        tr ++ [.loginReq]⟩) := by
  unfold loginStep
  simp [hstatus, hfail, hq]

/-- Calling _get_session with no stored session but working credentials: one login
request is made and the fresh identifier is returned. -/
lemma getSession_login (net : Nat → Response) (t : Int) (fuel : Nat)
    (u : String) (p : Option String) (cach : Option (Nat × Int)) (i : Nat)
    (tr : List Req) (v : String) (vs : List String)
    (hstatus : (net i).statusCode = 200)
    (hfail : (net i).urlHasFailed = false)
    (hq : parseQsGet (net i).query "session_id" = some (v :: vs)) :
    getSession net t true fuel ⟨⟨some u, p, none, cach⟩, i, tr⟩ =
      (.ok (some v),
       ⟨⟨some u, p, some (v, t + TIMEOUT_SESSION),
         some ((net i).content, t + TIMEOUT_CACHE)⟩, i + 1,
        tr ++ [.loginReq]⟩) := by
  rw [getSession.eq_def]
  have hfresh : ¬ t + TIMEOUT_SESSION < t := by simp [TIMEOUT_SESSION]
  simp [loginStep_ok net t u p none cach i tr v vs hstatus hfail hq, hfresh]

/-- C3: with a valid session, a main-page POST whose response redirects to
the login page clears the session and the cache together, re-logs-in, and
retries the same request exactly once: if the retried request is again
redirected to the login page the call fails with SessionError (and the
state stays cleared); if it succeeds the result is returned — in both
cases the trace shows exactly one retry and never a second one. -/
theorem mainPage_login_redirect_retry (net : Nat → Response) (t : Int)
    (w : Int) (u : String) (p : Option String) (sid : String) (vu : Int)
    (cach : Option (Nat × Int)) (i : Nat) (tr : List Req)
    (v : String) (vs : List String)
    (hvu : ¬ vu < t)
    (h0status : (net i).statusCode = 200)
    (h0login : (net i).urlHasLogin = true)
    (h1status : (net (i + 1)).statusCode = 200)
    (h1fail : (net (i + 1)).urlHasFailed = false)
    (h1q : parseQsGet (net (i + 1)).query "session_id" = some (v :: vs)) :
    ((net (i + 2)).statusCode = 200 → (net (i + 2)).urlHasLogin = true →
      mainPage net t true w 1 ⟨⟨some u, p, some (sid, vu), cach⟩, i, tr⟩ =
        (.error .sessionError,
         ⟨⟨some u, p, none, none⟩, i + 3,
          tr ++ [.mainPost w, .loginReq, .mainPost w]⟩)) ∧
    ((net (i + 2)).statusCode = 200 → (net (i + 2)).urlHasLogin = false →
      mainPage net t true w 1 ⟨⟨some u, p, some (sid, vu), cach⟩, i, tr⟩ =
        (.ok (net (i + 2)).content,
         ⟨⟨some u, p, some (v, t + TIMEOUT_SESSION),
           some ((net (i + 2)).content, t + TIMEOUT_CACHE)⟩, i + 3,
          tr ++ [.mainPost w, .loginReq, .mainPost w]⟩)) := by
  have hstep1 :
      mainPage net t true w 1 ⟨⟨some u, p, some (sid, vu), cach⟩, i, tr⟩ =
        mainPage net t true w 0
          ⟨⟨some u, p, none, none⟩, i + 1, tr ++ [.mainPost w]⟩ := by
    rw [mainPage, getSession_valid net t 1 u p sid vu cach i tr hvu]
    simp [h0status, h0login, clearCache]
  constructor
  · intro h2status h2login
    rw [hstep1, mainPage.eq_def]
    simp [getSession_login net t 1 u p none (i + 1) (tr ++ [.mainPost w]) v vs
        h1status h1fail h1q, h2status, h2login, clearCache]
  · intro h2status h2login
    rw [hstep1, mainPage.eq_def]
    simp [getSession_login net t 1 u p none (i + 1) (tr ++ [.mainPost w]) v vs
        h1status h1fail h1q, h2status, h2login, mainFinish]

/-- C3 witness: a concrete oracle whose main-page responses always redirect
to the login page while login succeeds — SessionError after exactly one
retry, with session and cache cleared. -/
theorem mainPage_login_redirect_retry_witness :
    mainPage
      (fun j => if j = 1 then ⟨200, false, false, [("session_id", "new")], 7⟩
        else ⟨200, true, false, [], 9⟩) 100 true 2 1
      ⟨⟨some "u", some "p", some ("sid", 1000), none⟩, 0, []⟩ =
      (.error .sessionError,
       ⟨⟨some "u", some "p", none, none⟩, 3,
        [.mainPost 2, .loginReq, .mainPost 2]⟩) := by
  have h := (mainPage_login_redirect_retry
    (fun j => if j = 1 then ⟨200, false, false, [("session_id", "new")], 7⟩
      else ⟨200, true, false, [], 9⟩) 100 2 "u" (some "p") "sid" 1000 none 0
    [] "new" [] (by norm_num) rfl rfl rfl rfl (by decide)).1 rfl rfl
  simpa using h

/-- When the final step of _main_page succeeds, the resulting state carries
a session expiring one full session TTL from now and a cache entry with
the returned content expiring one full cache TTL from now. -/
lemma mainFinish_ok_state (t : Int) (content : Nat) (st : St) (c : Nat)
    (stF : St) (h : mainFinish t content st = (.ok c, stF)) :
    ∃ sid, stF.client.session = some (sid, t + TIMEOUT_SESSION) ∧
           stF.client.cache = some (c, t + TIMEOUT_CACHE) := by
  unfold mainFinish at h
  split at h
  · simp at h
  · next sid vu heq =>
    rw [Prod.mk.injEq] at h
    obtain ⟨h1, h2⟩ := h
    have hc : content = c := by simpa using h1
    subst hc
    subst h2
    exact ⟨sid, by simp, by simp⟩

/-- Every successful _main_page read, whether it issued a request or was
answered from the cache, leaves the session and the cache with a full TTL
from now. -/
lemma mainPage_ok_state (net : Nat → Response) (t : Int) (post : Bool)
    (what : Int) :
    ∀ (fuel : Nat) (st : St) (c : Nat) (stF : St),
      mainPage net t post what fuel st = (.ok c, stF) →
      ∃ sid, stF.client.session = some (sid, t + TIMEOUT_SESSION) ∧
             stF.client.cache = some (c, t + TIMEOUT_CACHE) := by
  intro fuel
  induction fuel with
  | zero =>
    intro st c stF h
    rw [mainPage] at h
    repeat
      first
        | exact mainFinish_ok_state t _ _ c stF h
        | split at h
        | simp at h
        | simp_all
  | succ f ih =>
    intro st c stF h
    rw [mainPage] at h
    repeat
      first
        | exact mainFinish_ok_state t _ _ c stF h
        | exact ih _ c stF h
        | split at h
        | simp at h
        | simp_all

/-- Starting right after a successful read at time t, a sequence of further
reads each within one cache TTL of the previous one is served entirely
from the cache: every read succeeds and neither the request index nor the
trace changes — the cached page is never refetched. -/
lemma readSeq_cached (net : Nat → Response) :
    ∀ (times : List Int) (t : Int) (u p : Option String) (sid : String)
      (c : Nat) (i : Nat) (tr : List Req),
      chainb t times = true →
      readSeq net times
        ⟨⟨u, p, some (sid, t + TIMEOUT_SESSION),
          some (c, t + TIMEOUT_CACHE)⟩, i, tr⟩ =
        (.ok (),
         ⟨⟨u, p, some (sid, (times.foldl (fun _ x => x) t) + TIMEOUT_SESSION),
           some (c, (times.foldl (fun _ x => x) t) + TIMEOUT_CACHE)⟩, i,
          tr⟩) := by
  intro times
  induction times with
  | nil =>
    intro t u p sid c i tr hch
    simp [readSeq]
  | cons v vs ih =>
    intro t u p sid c i tr hch
    simp only [chainb, Bool.and_eq_true, decide_eq_true_eq] at hch
    have hvu : ¬ t + TIMEOUT_SESSION < v := by
      simp only [TIMEOUT_SESSION, TIMEOUT_CACHE] at *
      omega
    rw [readSeq,
      mainPage_get_hit net v 1 u p sid (t + TIMEOUT_SESSION) c
        (t + TIMEOUT_CACHE) i tr hvu hch.1]
    have hrest := ih v u p sid c i tr hch.2
    simpa using hrest

/-- C10: every successful main-page read — even one answered entirely from
the cache with no network request — resets both the session expiry and the
cache expiry to a full TTL from now; consequently, after one successful
read, further reads each spaced less than one cache TTL apart are all
served from the cache and never refetch the page, no matter how much total
time elapses. -/
theorem mainPage_sliding_expiry :
    (∀ (net : Nat → Response) (t : Int) (post : Bool) (what : Int)
       (fuel : Nat) (st : St) (c : Nat) (stF : St),
      mainPage net t post what fuel st = (.ok c, stF) →
      ∃ sid, stF.client.session = some (sid, t + TIMEOUT_SESSION) ∧
             stF.client.cache = some (c, t + TIMEOUT_CACHE)) ∧
    (∀ (net : Nat → Response) (times : List Int) (t : Int)
       (u p : Option String) (sid : String) (c : Nat) (i : Nat)
       (tr : List Req),
      chainb t times = true →
      (readSeq net times
        ⟨⟨u, p, some (sid, t + TIMEOUT_SESSION),
          some (c, t + TIMEOUT_CACHE)⟩, i, tr⟩).1 = .ok () ∧
      (readSeq net times
        ⟨⟨u, p, some (sid, t + TIMEOUT_SESSION),
          some (c, t + TIMEOUT_CACHE)⟩, i, tr⟩).2.idx = i ∧
      (readSeq net times
        ⟨⟨u, p, some (sid, t + TIMEOUT_SESSION),
          some (c, t + TIMEOUT_CACHE)⟩, i, tr⟩).2.trace = tr) := by
  refine ⟨fun net t post what fuel st c stF h =>
    mainPage_ok_state net t post what fuel st c stF h, ?_⟩
  intro net times t u p sid c i tr hch
  rw [readSeq_cached net times t u p sid c i tr hch]
  exact ⟨rfl, rfl, rfl⟩

/-- C10 witness: a cache hit at time 100 refreshes both expiries, and three
subsequent reads at times 120, 240 and 380 (each within 150 seconds of the
previous read) issue no network request at all. -/
theorem mainPage_sliding_expiry_witness :
    (∃ sid,
      (⟨⟨some "u", some "p", some ("sid", 400), some (42, 250)⟩, 1,
        [Req.mainGet]⟩ : St).client.session = some (sid, 100 + TIMEOUT_SESSION) ∧
      (⟨⟨some "u", some "p", some ("sid", 400), some (42, 250)⟩, 1,
        [Req.mainGet]⟩ : St).client.cache = some (42, 100 + TIMEOUT_CACHE)) ∧
    (readSeq (fun _ => ⟨200, false, false, [], 9⟩) [120, 240, 380]
      ⟨⟨some "u", some "p", some ("sid", 100 + TIMEOUT_SESSION),
        some (42, 100 + TIMEOUT_CACHE)⟩, 1, [Req.mainGet]⟩).2.trace
      = [Req.mainGet] := by
  constructor
  · refine mainPage_sliding_expiry.1 (fun _ => ⟨200, false, false, [], 9⟩)
      100 false 0 1 ⟨⟨some "u", some "p", some ("sid", 400), some (42, 250)⟩,
        1, [Req.mainGet]⟩ 42
      ⟨⟨some "u", some "p", some ("sid", 400), some (42, 250)⟩, 1,
        [Req.mainGet]⟩ ?_
    show mainPage _ 100 false 0 1 _ = _
    rw [mainPage_get_hit (fun _ => ⟨200, false, false, [], 9⟩) 100 1
      (some "u") (some "p") "sid" 400 42 250 1 [Req.mainGet]
      (by norm_num) (by norm_num)]
    norm_num [TIMEOUT_SESSION, TIMEOUT_CACHE]
  · exact (mainPage_sliding_expiry.2 (fun _ => ⟨200, false, false, [], 9⟩)
      [120, 240, 380] 100 (some "u") (some "p") "sid" 42 1 [Req.mainGet]
      (by decide)).2.2

end Eetlijst
